import Mathlib

/-!
Verification development for the paraboard drawing canvas
(src/components/drawing-canvas.tsx).

The component is a single-actor, event-driven editor.  We embed its React
state as an explicit `CanvasState` record over exact rationals (JS numbers
are IEEE doubles; all claims under study are about the algebra of the
operations, so we use `ℚ` and note where exactness matters), and each event
handler / command as a state-transition function translated line by line
from the source.

Two translation conventions deserve note:

* React state updates (`setX(...)`) scheduled inside a handler do not
  change the values the handler's closures read; the update is applied
  after the handler returns.  In particular `saveToHistory()` is a
  `useCallback` closing over the render's `elements`/`selectedElements`,
  so when a handler calls `setElements(...)` and then `saveToHistory()`,
  the pushed snapshot contains the PRE-update elements.  The transition
  functions below make this explicit: the history fields are always
  computed from the handler's input state, the live fields from the
  scheduled updates.

* `Math.sqrt` comparisons (circle and pen hit-tests) are decided exactly
  over `ℚ` by the helper predicates `sqrtLt` and `sqrtLe`; theorems
  `sqrtLt_correct` and `sqrtLe_correct` below prove that these boolean
  procedures decide exactly the real-number comparisons written in the
  source.
-/

namespace Paraboard

/-- JS `Math.round`: round half toward positive infinity,
`Math.round(x) = ⌊x + 0.5⌋`. -/
def mathRound (q : ℚ) : ℤ := ⌊q + 1/2⌋

/-- The discriminant of the `Shape` union in the source
(`"pen" | "line" | "rectangle" | "circle"`). -/
inductive ShapeType where
  | pen | line | rectangle | circle
deriving DecidableEq

/-- The `Shape` record of the source: start/end coordinates, line width,
an optional point path (present for pen strokes) and the optional
transform fields. -/
structure Shape where
  id : String
  type : ShapeType
  startX : ℚ
  startY : ℚ
  endX : ℚ
  endY : ℚ
  lineWidth : ℚ
  points : Option (List (ℚ × ℚ))
  rotation : Option ℚ
  flipX : Option Bool
  flipY : Option Bool
deriving DecidableEq

/-- The `TextElement` record of the source. -/
structure TextElement where
  id : String
  x : ℚ
  y : ℚ
  content : String
  fontSize : ℚ
  rotation : Option ℚ
  flipX : Option Bool
  flipY : Option Bool
deriving DecidableEq

/-- `DrawingElement = Shape | TextElement`. -/
inductive DrawingElement where
  | shape (sh : Shape)
  | text (t : TextElement)
deriving DecidableEq

/-- The common `id` field of the union. -/
def DrawingElement.id : DrawingElement → String
  | .shape sh => sh.id
  | .text t => t.id

/-- `HistoryState`: one undo/redo snapshot. -/
structure HistoryState where
  elements : List DrawingElement
  selectedElements : List DrawingElement
deriving DecidableEq

/-- The in-progress selection rectangle (`selectionBox` state). -/
structure SelBox where
  startX : ℚ
  startY : ℚ
  endX : ℚ
  endY : ℚ
deriving DecidableEq

/-- The active tool. -/
inductive Tool where
  | pen | line | rectangle | circle | text | move | eraser | select
deriving DecidableEq

/-- The component's mutable state (the `useState` hooks of the component).
Fields read only by unmodelled collaborators (the 2D rendering context,
`panStart`, `showGrid`) are omitted. -/
structure CanvasState where
  elements : List DrawingElement
  selectedElements : List DrawingElement
  copiedElements : List DrawingElement
  history : List HistoryState
  historyIndex : Nat
  zoom : ℚ
  panOffset : ℚ × ℚ
  gridSnap : Bool
  tool : Tool
  textInput : String
  textPosition : ℚ × ℚ
  lineWidth : ℚ
  editingTextId : Option String
  isAddingText : Bool
  isDrawing : Bool
  isSelecting : Bool
  selectionBox : Option SelBox
  isPanning : Bool
  movingElement : Option DrawingElement
  resizeHandle : Option String
deriving DecidableEq

/-- `const gridSize = 20`. -/
def gridSize : ℚ := 20

/-- `snapToGrid(x, y)`: identity when snapping is disabled, otherwise
quantize each coordinate to the nearest multiple of the cell size
(`Math.round(v / gridSize) * gridSize`).  The component closes over
`gridSnap` and `gridSize`; here they are explicit parameters. -/
def snapToGrid (gridSnap : Bool) (g : ℚ) (x y : ℚ) : ℚ × ℚ :=
  if gridSnap then ((mathRound (x / g) : ℚ) * g, (mathRound (y / g) : ℚ) * g)
  else (x, y)

/-- `snapElementToGrid(element)`: snap the anchor of a text element, or
the start/end pair (and the point path when present) of a shape. -/
def snapElementToGrid (gridSnap : Bool) (g : ℚ) (el : DrawingElement) : DrawingElement :=
  if gridSnap = false then el
  else
    match el with
    | .text t =>
      let snapped := snapToGrid gridSnap g t.x t.y
      .text { t with x := snapped.1, y := snapped.2 }
    | .shape sh =>
      let snappedStart := snapToGrid gridSnap g sh.startX sh.startY
      let snappedEnd := snapToGrid gridSnap g sh.endX sh.endY
      let newPoints :=
        match sh.points with
        | some ps => some (ps.map (fun p => snapToGrid gridSnap g p.1 p.2))
        | none => none
      .shape { sh with
        startX := snappedStart.1, startY := snappedStart.2,
        endX := snappedEnd.1, endY := snappedEnd.2,
        points := newPoints }

/-- The raw (unquantized) screen-to-world conversion,
`world = (client − rect − pan) / zoom`.  Modelled from the spec: this is
the conversion §4.1 says hit-testing should receive; the source's
`transformCoordinates` is compared against it. -/
def worldPoint (rectLeft rectTop clientX clientY : ℚ) (s : CanvasState) : ℚ × ℚ :=
  ((clientX - rectLeft - s.panOffset.1) / s.zoom,
   (clientY - rectTop - s.panOffset.2) / s.zoom)

/-- `transformCoordinates(clientX, clientY)`: subtract the canvas rect
offset and the pan, divide by zoom, then pass the result through
`snapToGrid` (source lines 195-204). -/
def transformCoordinates (rectLeft rectTop clientX clientY : ℚ) (s : CanvasState) : ℚ × ℚ :=
  let x := (clientX - rectLeft - s.panOffset.1) / s.zoom
  let y := (clientY - rectTop - s.panOffset.2) / s.zoom
  snapToGrid s.gridSnap gridSize x y

/-- The screen-to-world conversion used inside `handleZoom`
(source lines 105-106): `world = (mouse − pan) / zoom`. -/
def screenToWorld (zoom : ℚ) (pan : ℚ × ℚ) (p : ℚ × ℚ) : ℚ × ℚ :=
  ((p.1 - pan.1) / zoom, (p.2 - pan.2) / zoom)

/-- `handleZoom(delta, clientX, clientY)`: convert the mouse position to
world coordinates with the old transform, clamp the new zoom to
`[0.1, 10]`, and recompute the pan so the same world point stays under
the mouse.  The `clientX ?? rect.width / 2` defaulting is resolved by the
caller here: `mouseX`/`mouseY` are the resolved anchor. -/
def handleZoom (delta mouseX mouseY : ℚ) (s : CanvasState) : CanvasState :=
  let worldX := (mouseX - s.panOffset.1) / s.zoom
  let worldY := (mouseY - s.panOffset.2) / s.zoom
  let newZoom := max 0.1 (min 10 (s.zoom + delta))
  { s with zoom := newZoom,
           panOffset := (mouseX - worldX * newZoom, mouseY - worldY * newZoom) }

/-- `saveToHistory()`: truncate the history after the cursor, append a
snapshot of the `elements`/`selectedElements` this closure sees, and move
the cursor to the new last index (source lines 121-130). -/
def saveToHistory (s : CanvasState) : CanvasState :=
  let newState : HistoryState := ⟨s.elements, s.selectedElements⟩
  let newHistory := s.history.take (s.historyIndex + 1) ++ [newState]
  { s with history := newHistory, historyIndex := newHistory.length - 1 }

/-- `undo()`: when the cursor is positive, restore the previous snapshot
and move the cursor back (source lines 133-140).  The inner `none` branch
is unreachable while the cursor stays below the history length. -/
def undo (s : CanvasState) : CanvasState :=
  if 0 < s.historyIndex then
    match s.history[s.historyIndex - 1]? with
    | some prevState =>
      { s with elements := prevState.elements,
               selectedElements := prevState.selectedElements,
               historyIndex := s.historyIndex - 1 }
    | none => s
  else s

/-- `redo()`: when the cursor is before the last snapshot, restore the
next snapshot and move the cursor forward (source lines 143-150). -/
def redo (s : CanvasState) : CanvasState :=
  if s.historyIndex < s.history.length - 1 then
    match s.history[s.historyIndex + 1]? with
    | some nextState =>
      { s with elements := nextState.elements,
               selectedElements := nextState.selectedElements,
               historyIndex := s.historyIndex + 1 }
    | none => s
  else s

/-- Decides `Real.sqrt d2 < t` for `0 ≤ d2` by exact rational
arithmetic: a nonnegative square root is below `t` iff `t` is positive
and `d2 < t ^ 2`.  Used for the pen-stroke hit-test
(`distance < 10 / zoom`). -/
def sqrtLt (d2 t : ℚ) : Bool :=
  decide (0 < t) && decide (d2 < t ^ 2)

/-- Decides `Real.sqrt d2 ≤ Real.sqrt r2 + t` for `0 ≤ d2`, `0 ≤ r2` by
exact rational arithmetic (see `sqrtLe_correct`).  Used for the circle
hit-test (`distance ≤ radius + 5 / zoom`). -/
def sqrtLe (d2 r2 t : ℚ) : Bool :=
  if 0 ≤ t then
    decide (d2 - r2 - t ^ 2 ≤ 0) || decide ((d2 - r2 - t ^ 2) ^ 2 ≤ 4 * t ^ 2 * r2)
  else
    decide (0 ≤ r2 - d2 - t ^ 2) && decide (4 * t ^ 2 * d2 ≤ (r2 - d2 - t ^ 2) ^ 2)

/-- `isPointInElement(x, y, element)` (source lines 1022-1045):
text uses the nominal box `[x, x+50] × [y − fontSize, y]`; circles compare
the distance from the center against `radius + 5/zoom`; pen strokes with a
point path test proximity (`< 10/zoom`) to some recorded point; everything
else (lines, rectangles, and pen strokes without a path) uses the
normalized bounding box padded by `5/zoom`. -/
def isPointInElement (x y zoom : ℚ) (el : DrawingElement) : Bool :=
  match el with
  | .text t =>
    decide (t.x ≤ x) && decide (x ≤ t.x + 50) &&
    decide (t.y - t.fontSize ≤ y) && decide (y ≤ t.y)
  | .shape sh =>
    if sh.type = ShapeType.circle then
      sqrtLe ((x - sh.startX) ^ 2 + (y - sh.startY) ^ 2)
             ((sh.endX - sh.startX) ^ 2 + (sh.endY - sh.startY) ^ 2)
             (5 / zoom)
    else if sh.type = ShapeType.pen ∧ sh.points.isSome then
      (sh.points.getD []).any (fun p => sqrtLt ((p.1 - x) ^ 2 + (p.2 - y) ^ 2) (10 / zoom))
    else
      let minX := min sh.startX sh.endX
      let maxX := max sh.startX sh.endX
      let minY := min sh.startY sh.endY
      let maxY := max sh.startY sh.endY
      let padding := 5 / zoom
      decide (minX - padding ≤ x) && decide (x ≤ maxX + padding) &&
      decide (minY - padding ≤ y) && decide (y ≤ maxY + padding)

/-- `eraseElements(x, y)` (source lines 1047-1058): the hit elements in
reverse z-order; when some element is hit, remove the topmost one from the
live elements and the selection by id and commit a snapshot.  The snapshot
records the pre-erase `elements`/`selectedElements` (stale closure, see
the file header). -/
def eraseElements (x y : ℚ) (s : CanvasState) : CanvasState :=
  let elementsAtPoint := s.elements.reverse.filter (isPointInElement x y s.zoom)
  match elementsAtPoint with
  | [] => s
  | elementToErase :: _ =>
    { s with
      elements := s.elements.filter (fun el => el.id ≠ elementToErase.id),
      selectedElements := s.selectedElements.filter (fun el => el.id ≠ elementToErase.id),
      history := (saveToHistory s).history,
      historyIndex := (saveToHistory s).historyIndex }

/-- The filter of `finishDrawing`'s box-select branch (source lines
849-860): normalize the selection rectangle; a text element passes when
its anchor point is inside, any other element when the normalized min/max
box of its start/end pair is fully inside. -/
def elementsInBox (sb : SelBox) (els : List DrawingElement) : List DrawingElement :=
  let minX := min sb.startX sb.endX
  let maxX := max sb.startX sb.endX
  let minY := min sb.startY sb.endY
  let maxY := max sb.startY sb.endY
  els.filter (fun el =>
    match el with
    | .text t =>
      decide (minX ≤ t.x) && decide (t.x ≤ maxX) &&
      decide (minY ≤ t.y) && decide (t.y ≤ maxY)
    | .shape sh =>
      let elMinX := min sh.startX sh.endX
      let elMaxX := max sh.startX sh.endX
      let elMinY := min sh.startY sh.endY
      let elMaxY := max sh.startY sh.endY
      decide (minX ≤ elMinX) && decide (elMaxX ≤ maxX) &&
      decide (minY ≤ elMinY) && decide (elMaxY ≤ maxY))

/-- `finishDrawing(e)` (source lines 836-885), the pointer-up handler:
an active pan just ends; otherwise the box-select branch resolves the
selection (union when the multi-select modifier is held, replacement
otherwise), and the drawing branch snaps the last element when grid snap
is on and commits a snapshot.  `saveToHistory` reads the pre-event
`elements`/`selectedElements` (stale closure), so the committed snapshot
ignores the updates scheduled earlier in the same handler. -/
def finishDrawing (ctrl : Bool) (s : CanvasState) : CanvasState :=
  if s.isPanning then { s with isPanning := false }
  else
    let s1 :=
      match s.selectionBox with
      | some sb =>
        if s.tool = Tool.select ∧ s.isSelecting then
          let inBox := elementsInBox sb s.elements
          let newSel :=
            if ctrl then
              s.selectedElements ++ inBox.filter (fun el => el ∉ s.selectedElements)
            else inBox
          { s with selectedElements := newSel, selectionBox := none, isSelecting := false }
        else s
      | none => s
    let s2 :=
      if s.isDrawing then
        let s1b :=
          if s.gridSnap ∧ s.elements ≠ [] then
            match s.elements.getLast? with
            | some lastElement =>
              { s1 with elements :=
                  s.elements.dropLast ++ [snapElementToGrid s.gridSnap gridSize lastElement] }
            | none => s1
          else s1
        { s1b with history := (saveToHistory s).history,
                   historyIndex := (saveToHistory s).historyIndex }
      else s1
    { s2 with isDrawing := false, movingElement := none, resizeHandle := none }

/-- `copyElements()` (source lines 1104-1108): with a nonempty selection,
copy it into the clipboard buffer; otherwise do nothing. -/
def copyElements (s : CanvasState) : CanvasState :=
  if 0 < s.selectedElements.length then
    { s with copiedElements := s.selectedElements }
  else s

/-- `pasteElements(x?, y?)` (source lines 1110-1151): no-op with an empty
clipboard; otherwise place each clipboard element at the paste anchor
(default `(50, 50)`) with a per-index stagger of 10, give it a fresh id
(`Date.now() + Math.random() + index`, supplied here by `idGen`), snap it
when grid snap is on, append all of them, select them, and commit.  The
committed snapshot again records the pre-paste state (stale closure). -/
def pasteElements (idGen : Nat → String) (px py : Option ℚ) (s : CanvasState) : CanvasState :=
  if s.copiedElements.length = 0 then s
  else
    let pasteX := px.getD 50
    let pasteY := py.getD 50
    let newElements := s.copiedElements.enum.map (fun pair =>
      let index : ℚ := pair.1
      let newElement : DrawingElement :=
        match pair.2 with
        | .text t =>
          .text { t with id := idGen pair.1,
                         x := pasteX + index * 10, y := pasteY + index * 10 }
        | .shape sh =>
          let width := sh.endX - sh.startX
          let height := sh.endY - sh.startY
          let offsetX := pasteX + index * 10 - sh.startX
          let offsetY := pasteY + index * 10 - sh.startY
          let newPoints :=
            match sh.points with
            | some ps => some (ps.map (fun p => (p.1 + offsetX, p.2 + offsetY)))
            | none => none
          .shape { sh with id := idGen pair.1,
                           startX := pasteX + index * 10,
                           startY := pasteY + index * 10,
                           endX := pasteX + width + index * 10,
                           endY := pasteY + height + index * 10,
                           points := newPoints }
      if s.gridSnap then snapElementToGrid s.gridSnap gridSize newElement else newElement)
    { s with elements := s.elements ++ newElements,
             selectedElements := newElements,
             history := (saveToHistory s).history,
             historyIndex := (saveToHistory s).historyIndex }

/-- `duplicateElements()` (source lines 1153-1182): no-op with an empty
selection; otherwise copy each selected element shifted by `(20, 20)`
(points included) under a fresh id, append, select the copies, commit.
The committed snapshot records the pre-duplicate state (stale closure). -/
def duplicateElements (idGen : Nat → String) (s : CanvasState) : CanvasState :=
  if s.selectedElements.length = 0 then s
  else
    let duplicated := s.selectedElements.enum.map (fun pair =>
      match pair.2 with
      | .text t =>
        DrawingElement.text { t with id := idGen pair.1, x := t.x + 20, y := t.y + 20 }
      | .shape sh =>
        let newPoints :=
          match sh.points with
          | some ps => some (ps.map (fun p => (p.1 + 20, p.2 + 20)))
          | none => none
        DrawingElement.shape { sh with id := idGen pair.1,
                                       startX := sh.startX + 20, startY := sh.startY + 20,
                                       endX := sh.endX + 20, endY := sh.endY + 20,
                                       points := newPoints })
    { s with elements := s.elements ++ duplicated,
             selectedElements := duplicated,
             history := (saveToHistory s).history,
             historyIndex := (saveToHistory s).historyIndex }

/-- `deleteSelectedElements()` (source lines 1184-1190): no-op with an
empty selection; otherwise drop every element whose id occurs in the
selection, clear the selection, commit (pre-delete snapshot). -/
def deleteSelectedElements (s : CanvasState) : CanvasState :=
  if s.selectedElements.length = 0 then s
  else
    { s with
      elements := s.elements.filter
        (fun el => ¬ s.selectedElements.any (fun sel => sel.id = el.id)),
      selectedElements := [],
      history := (saveToHistory s).history,
      historyIndex := (saveToHistory s).historyIndex }

/-- `clearCanvas()` (source lines 1060-1064). -/
def clearCanvas (s : CanvasState) : CanvasState :=
  { s with elements := [], selectedElements := [],
           history := (saveToHistory s).history,
           historyIndex := (saveToHistory s).historyIndex }

/-- `{ ...el, rotation: (el.rotation || 0) + 90 }`: JS `|| 0` sends both
`undefined` and `0` to `0`, which `Option.getD 0` reproduces. -/
def DrawingElement.rotate90 : DrawingElement → DrawingElement
  | .shape sh => .shape { sh with rotation := some (sh.rotation.getD 0 + 90) }
  | .text t => .text { t with rotation := some (t.rotation.getD 0 + 90) }

/-- `{ ...el, flipX: !el.flipX }`: JS `!undefined = true`, matched by
`Option.getD false`. -/
def DrawingElement.toggleFlipX : DrawingElement → DrawingElement
  | .shape sh => .shape { sh with flipX := some (!sh.flipX.getD false) }
  | .text t => .text { t with flipX := some (!t.flipX.getD false) }

/-- `{ ...el, flipY: !el.flipY }`. -/
def DrawingElement.toggleFlipY : DrawingElement → DrawingElement
  | .shape sh => .shape { sh with flipY := some (!sh.flipY.getD false) }
  | .text t => .text { t with flipY := some (!t.flipY.getD false) }

/-- `rotateSelectedElements()` (source lines 1196-1210): no-op with an
empty selection; otherwise add 90 degrees to every selected element (in
the store, matched by id) and to the selection copies, commit
(pre-rotation snapshot). -/
def rotateSelectedElements (s : CanvasState) : CanvasState :=
  if s.selectedElements.length = 0 then s
  else
    { s with
      elements := s.elements.map (fun el =>
        if s.selectedElements.any (fun sel => sel.id = el.id) then el.rotate90 else el),
      selectedElements := s.selectedElements.map DrawingElement.rotate90,
      history := (saveToHistory s).history,
      historyIndex := (saveToHistory s).historyIndex }

/-- `flipSelectedElementsHorizontal()` (source lines 1212-1226). -/
def flipSelectedElementsHorizontal (s : CanvasState) : CanvasState :=
  if s.selectedElements.length = 0 then s
  else
    { s with
      elements := s.elements.map (fun el =>
        if s.selectedElements.any (fun sel => sel.id = el.id) then el.toggleFlipX else el),
      selectedElements := s.selectedElements.map DrawingElement.toggleFlipX,
      history := (saveToHistory s).history,
      historyIndex := (saveToHistory s).historyIndex }

/-- `flipSelectedElementsVertical()` (source lines 1228-1242). -/
def flipSelectedElementsVertical (s : CanvasState) : CanvasState :=
  if s.selectedElements.length = 0 then s
  else
    { s with
      elements := s.elements.map (fun el =>
        if s.selectedElements.any (fun sel => sel.id = el.id) then el.toggleFlipY else el),
      selectedElements := s.selectedElements.map DrawingElement.toggleFlipY,
      history := (saveToHistory s).history,
      historyIndex := (saveToHistory s).historyIndex }

/-- `(el.id === editingTextId ? { ...el, content: textInput } : el)`:
spreading `content` onto a non-text shape adds a property no consumer
reads, so only the text variant changes. -/
def DrawingElement.withContent (c : String) : DrawingElement → DrawingElement
  | .shape sh => .shape sh
  | .text t => .text { t with content := c }

/-- `addTextToCanvas()` (source lines 887-913): nothing happens on empty
input; editing replaces the content of the element being edited (no
commit!); otherwise a new text element is appended at `textPosition` with
`fontSize = lineWidth * 8` and identity transform, and a commit is made —
whose snapshot, by the stale closure, does not yet contain the new text
element.  The fresh `Date.now()` id is the `id` argument. -/
def addTextToCanvas (id : String) (s : CanvasState) : CanvasState :=
  if s.textInput = "" then s
  else
    match s.editingTextId with
    | some editId =>
      { s with
        elements := s.elements.map (fun el =>
          if el.id = editId then el.withContent s.textInput else el),
        editingTextId := none, textInput := "", isAddingText := false }
    | none =>
      let newElement : DrawingElement :=
        .text ⟨id, s.textPosition.1, s.textPosition.2, s.textInput,
               s.lineWidth * 8, some 0, some false, some false⟩
      { s with elements := s.elements ++ [newElement],
               history := (saveToHistory s).history,
               historyIndex := (saveToHistory s).historyIndex,
               textInput := "", isAddingText := false }

/-- `handleToolChange(newTool)` (source lines 1075-1084). -/
def handleToolChange (newTool : Tool) (s : CanvasState) : CanvasState :=
  let s1 :=
    if s.tool = Tool.text ∧ s.isAddingText then
      { s with isAddingText := false, textInput := "" }
    else s
  let s2 := { s1 with tool := newTool }
  if newTool ≠ Tool.select ∧ newTool ≠ Tool.move then
    { s2 with selectedElements := [] }
  else s2

/-- A normalized axis-aligned rectangle, for stating the box-select
containment property. -/
structure Rect where
  minX : ℚ
  minY : ℚ
  maxX : ℚ
  maxY : ℚ
deriving DecidableEq

/-- The normalized rectangle of a selection box. -/
def selBoxRect (sb : SelBox) : Rect :=
  ⟨min sb.startX sb.endX, min sb.startY sb.endY,
   max sb.startX sb.endX, max sb.startY sb.endY⟩

/-- The normalized min/max bounding box of a shape's start/end pair. -/
def shapeBBox (sh : Shape) : Rect :=
  ⟨min sh.startX sh.endX, min sh.startY sh.endY,
   max sh.startX sh.endX, max sh.startY sh.endY⟩

/-- The nominal box of a text element used by hit-testing
(`[x, x+50] × [y − fontSize, y]`, source line 1024). -/
def textNominalBox (t : TextElement) : Rect :=
  ⟨t.x, t.y - t.fontSize, t.x + 50, t.y⟩

/-- `inner` is fully contained in `outer`. -/
def rectContains (outer inner : Rect) : Prop :=
  outer.minX ≤ inner.minX ∧ inner.maxX ≤ outer.maxX ∧
  outer.minY ≤ inner.minY ∧ inner.maxY ≤ outer.maxY

instance (outer inner : Rect) : Decidable (rectContains outer inner) := by
  unfold rectContains; infer_instance

/-- The condition the box-select filter is claimed to implement, written
from the claim's words: a shape is selected iff its normalized bounding
box is fully contained in the normalized selection rectangle; a text
element iff its anchor point lies inside it. -/
def inSelectionRect (sb : SelBox) : DrawingElement → Prop
  | .shape sh => rectContains (selBoxRect sb) (shapeBBox sh)
  | .text t =>
    (selBoxRect sb).minX ≤ t.x ∧ t.x ≤ (selBoxRect sb).maxX ∧
    (selBoxRect sb).minY ≤ t.y ∧ t.y ≤ (selBoxRect sb).maxY

instance (sb : SelBox) (el : DrawingElement) : Decidable (inSelectionRect sb el) := by
  unfold inSelectionRect; cases el <;> infer_instance

/-- The initial component state: empty store, one empty snapshot at
cursor 0, zoom 1, no pan, pen tool. -/
def initState : CanvasState :=
  { elements := [], selectedElements := [], copiedElements := [],
    history := [⟨[], []⟩], historyIndex := 0,
    zoom := 1, panOffset := (0, 0), gridSnap := false,
    tool := Tool.pen, textInput := "", textPosition := (0, 0),
    lineWidth := 2, editingTextId := none, isAddingText := false,
    isDrawing := false, isSelecting := false, selectionBox := none,
    isPanning := false, movingElement := none, resizeHandle := none }

/-- The externally triggered state-changing operations of the component,
each mapped to its handler.  `panBy` covers both wheel panning
(lines 1253-1257, with negated deltas) and arrow-key panning
(lines 291-308); `zoomBy` covers the toolbar buttons and keyboard
shortcuts (delta ±0.2) and ctrl+wheel (delta ±0.1); `resetView` covers
ctrl+0 and the reset button. -/
inductive Op where
  | zoomBy (delta mouseX mouseY : ℚ)
  | resetView
  | panBy (dx dy : ℚ)
  | undoOp
  | redoOp
  | clear
  | eraseAt (x y : ℚ)
  | pasteAt (idGen : Nat → String) (x y : Option ℚ)
  | duplicateSel (idGen : Nat → String)
  | deleteSel
  | copySel
  | rotateSel
  | flipHSel
  | flipVSel
  | addText (id : String)
  | finishDraw (ctrl : Bool)
  | changeTool (t : Tool)

/-- Dispatch one operation to its handler. -/
def applyOp (op : Op) (s : CanvasState) : CanvasState :=
  match op with
  | .zoomBy delta mx my => handleZoom delta mx my s
  | .resetView => { s with zoom := 1, panOffset := (0, 0) }
  | .panBy dx dy => { s with panOffset := (s.panOffset.1 + dx, s.panOffset.2 + dy) }
  | .undoOp => undo s
  | .redoOp => redo s
  | .clear => clearCanvas s
  | .eraseAt x y => eraseElements x y s
  | .pasteAt idGen x y => pasteElements idGen x y s
  | .duplicateSel idGen => duplicateElements idGen s
  | .deleteSel => deleteSelectedElements s
  | .copySel => copyElements s
  | .rotateSel => rotateSelectedElements s
  | .flipHSel => flipSelectedElementsHorizontal s
  | .flipVSel => flipSelectedElementsVertical s
  | .addText id => addTextToCanvas id s
  | .finishDraw ctrl => finishDrawing ctrl s
  | .changeTool t => handleToolChange t s

/-- Run a sequence of operations from the initial state. -/
def applyOps (ops : List Op) : CanvasState :=
  ops.foldl (fun s op => applyOp op s) initState

/-- Demo rectangle A, drawn first, covering `[0,0]-[20,20]`. -/
def demoShapeA : Shape :=
  { id := "A", type := ShapeType.rectangle,
    startX := 0, startY := 0, endX := 20, endY := 20,
    lineWidth := 2, points := none,
    rotation := some 0, flipX := some false, flipY := some false }

/-- Demo rectangle B, drawn after A, covering `[10,10]-[30,30]`; it
overlaps A on `[10,10]-[20,20]`. -/
def demoShapeB : Shape :=
  { id := "B", type := ShapeType.rectangle,
    startX := 10, startY := 10, endX := 30, endY := 30,
    lineWidth := 2, points := none,
    rotation := some 0, flipX := some false, flipY := some false }

/-- A state holding A below B (B is topmost). -/
def demoStateAB : CanvasState :=
  { initState with elements := [.shape demoShapeA, .shape demoShapeB] }

/-- A state with grid snapping enabled. -/
def demoSnapState : CanvasState :=
  { initState with gridSnap := true }

/-- A state whose history holds two snapshots with the cursor on the
last one and the live state equal to it (as after a completed drawing
gesture). -/
def demoCommitted : CanvasState :=
  { initState with
    elements := [.shape demoShapeA],
    history := [⟨[], []⟩, ⟨[.shape demoShapeA], []⟩],
    historyIndex := 1 }

/-- The initial state just after the text-entry collaborator filled in
the pending input (content typed at anchor `(5, 5)`), ready for the
text commit. -/
def demoTextStart : CanvasState :=
  { initState with textInput := "hi", textPosition := (5, 5) }

/-- The fresh id handed to the text commit in the demo scenario. -/
def demoTextId : String := "t1"

/-- A text element anchored at `(25, 25)` with font size 16: its nominal
box is `[25, 75] × [9, 25]`. -/
def demoTextEl : TextElement :=
  { id := "T", x := 25, y := 25, content := "hi", fontSize := 16,
    rotation := none, flipX := none, flipY := none }

/-- The selection rectangle `[0,0]-[30,30]`. -/
def demoSelBox : SelBox := ⟨0, 0, 30, 30⟩

/-- The selection rectangle `[15,15]-[30,30]`. -/
def demoSelBoxSmall : SelBox := ⟨15, 15, 30, 30⟩

/-- Mid-box-select state over the demo text element with selection
rectangle `[0,0]-[30,30]`. -/
def demoTextBoxState : CanvasState :=
  { initState with
    elements := [.text demoTextEl], tool := Tool.select,
    isSelecting := true, selectionBox := some demoSelBox }

/-- A shape with bounding box `[10,10]-[20,20]` (the box of the spec's
box-select test vector). -/
def demoShapeC : Shape :=
  { id := "C", type := ShapeType.rectangle,
    startX := 10, startY := 10, endX := 20, endY := 20,
    lineWidth := 2, points := none,
    rotation := some 0, flipX := some false, flipY := some false }

/-- Mid-box-select state over `demoShapeC` with selection rectangle
`[0,0]-[30,30]`. -/
def demoBoxState1 : CanvasState :=
  { initState with
    elements := [.shape demoShapeC], tool := Tool.select,
    isSelecting := true, selectionBox := some demoSelBox }

/-- Mid-box-select state over `demoShapeC` with selection rectangle
`[15,15]-[30,30]` (partial overlap with the shape). -/
def demoBoxState2 : CanvasState :=
  { initState with
    elements := [.shape demoShapeC], tool := Tool.select,
    isSelecting := true, selectionBox := some demoSelBoxSmall }

/-! ## Theorems -/

/-- `sqrtLt` decides the source's strict distance comparison
`Math.sqrt d2 < t` exactly. -/
theorem sqrtLt_correct (d2 t : ℚ) :
    sqrtLt d2 t = true ↔ Real.sqrt (d2 : ℝ) < (t : ℝ) := by
  simp only [sqrtLt, Bool.and_eq_true, decide_eq_true_eq]
  constructor
  · rintro ⟨ht, hlt⟩
    rw [Real.sqrt_lt' (by exact_mod_cast ht)]
    exact_mod_cast hlt
  · intro h
    have ht : (0 : ℝ) < t := lt_of_le_of_lt (Real.sqrt_nonneg _) h
    rw [Real.sqrt_lt' ht] at h
    exact ⟨by exact_mod_cast ht, by exact_mod_cast h⟩

/-- `sqrtLe` decides the source's circle hit-test comparison
`Math.sqrt d2 <= Math.sqrt r2 + t` exactly. -/
theorem sqrtLe_correct (d2 r2 t : ℚ) (hd : 0 ≤ d2) (hr : 0 ≤ r2) :
    sqrtLe d2 r2 t = true ↔
      Real.sqrt (d2 : ℝ) ≤ Real.sqrt (r2 : ℝ) + (t : ℝ) := by
  have ha : (0 : ℝ) ≤ Real.sqrt (r2 : ℝ) := Real.sqrt_nonneg _
  have ha2 : Real.sqrt (r2 : ℝ) ^ 2 = (r2 : ℝ) := Real.sq_sqrt (by exact_mod_cast hr)
  have hb : (0 : ℝ) ≤ Real.sqrt (d2 : ℝ) := Real.sqrt_nonneg _
  have hb2 : Real.sqrt (d2 : ℝ) ^ 2 = (d2 : ℝ) := Real.sq_sqrt (by exact_mod_cast hd)
  unfold sqrtLe
  by_cases ht : 0 ≤ t
  · have ht' : (0 : ℝ) ≤ (t : ℝ) := by exact_mod_cast ht
    have hw : (0 : ℝ) ≤ 2 * t * Real.sqrt (r2 : ℝ) :=
      mul_nonneg (by linarith) ha
    have hw2 : (2 * (t : ℝ) * Real.sqrt (r2 : ℝ)) ^ 2 = 4 * t ^ 2 * r2 := by
      rw [show (2 * (t : ℝ) * Real.sqrt (r2 : ℝ)) ^ 2
            = 4 * t ^ 2 * Real.sqrt (r2 : ℝ) ^ 2 by ring, ha2]
    simp only [if_pos ht, Bool.or_eq_true, decide_eq_true_eq]
    rw [Real.sqrt_le_iff]
    constructor
    · rintro (h | h)
      · have h' : (d2 : ℝ) - r2 - t ^ 2 ≤ 0 := by exact_mod_cast h
        exact ⟨by linarith, by nlinarith⟩
      · have h' : ((d2 : ℝ) - r2 - t ^ 2) ^ 2 ≤ 4 * t ^ 2 * r2 := by exact_mod_cast h
        refine ⟨by linarith, ?_⟩
        have h1 := Real.sqrt_le_sqrt (hw2 ▸ h')
        rw [Real.sqrt_sq_eq_abs, Real.sqrt_sq hw] at h1
        have hle : (d2 : ℝ) - r2 - t ^ 2 ≤ 2 * t * Real.sqrt (r2 : ℝ) :=
          le_trans (le_abs_self _) h1
        nlinarith
    · rintro ⟨-, h⟩
      have hle : (d2 : ℝ) - r2 - t ^ 2 ≤ 2 * t * Real.sqrt (r2 : ℝ) := by nlinarith
      by_cases hu : (d2 : ℝ) - r2 - t ^ 2 ≤ 0
      · exact Or.inl (by exact_mod_cast hu)
      · push_neg at hu
        refine Or.inr ?_
        have hsq : ((d2 : ℝ) - r2 - t ^ 2) ^ 2 ≤ (2 * t * Real.sqrt (r2 : ℝ)) ^ 2 :=
          pow_le_pow_left₀ hu.le hle 2
        have : ((d2 : ℝ) - r2 - t ^ 2) ^ 2 ≤ 4 * t ^ 2 * r2 := by
          calc ((d2 : ℝ) - r2 - t ^ 2) ^ 2 ≤ (2 * t * Real.sqrt (r2 : ℝ)) ^ 2 := hsq
            _ = 4 * t ^ 2 * r2 := hw2
        exact_mod_cast this
  · push_neg at ht
    have ht' : (t : ℝ) < 0 := by exact_mod_cast ht
    simp only [if_neg (not_le.mpr ht), Bool.and_eq_true, decide_eq_true_eq]
    have hbt : (0 : ℝ) ≤ Real.sqrt (d2 : ℝ) - t := by linarith
    have hstep : Real.sqrt (d2 : ℝ) ≤ Real.sqrt (r2 : ℝ) + t ↔
        (Real.sqrt (d2 : ℝ) - t) ^ 2 ≤ (r2 : ℝ) := by
      rw [← Real.le_sqrt hbt (by exact_mod_cast hr)]
      constructor <;> intro h <;> linarith
    rw [hstep]
    constructor
    · rintro ⟨hv, hsq⟩
      have hv' : (0 : ℝ) ≤ (r2 : ℝ) - d2 - t ^ 2 := by exact_mod_cast hv
      have hsq' : 4 * (t : ℝ) ^ 2 * d2 ≤ ((r2 : ℝ) - d2 - t ^ 2) ^ 2 := by exact_mod_cast hsq
      have hw : (0 : ℝ) ≤ -2 * t * Real.sqrt (d2 : ℝ) :=
        mul_nonneg (by linarith) hb
      have hw2 : (-2 * (t : ℝ) * Real.sqrt (d2 : ℝ)) ^ 2 = 4 * t ^ 2 * d2 := by
        rw [show (-2 * (t : ℝ) * Real.sqrt (d2 : ℝ)) ^ 2
              = 4 * t ^ 2 * Real.sqrt (d2 : ℝ) ^ 2 by ring, hb2]
      have h1 := Real.sqrt_le_sqrt (le_trans (le_of_eq hw2) hsq')
      rw [Real.sqrt_sq_eq_abs, Real.sqrt_sq hv'] at h1
      have hwv : -2 * (t : ℝ) * Real.sqrt (d2 : ℝ) ≤ (r2 : ℝ) - d2 - t ^ 2 :=
        le_trans (le_abs_self _) h1
      nlinarith
    · intro h
      have hw : (0 : ℝ) ≤ -2 * t * Real.sqrt (d2 : ℝ) :=
        mul_nonneg (by linarith) hb
      have hwv : -2 * (t : ℝ) * Real.sqrt (d2 : ℝ) ≤ (r2 : ℝ) - d2 - t ^ 2 := by nlinarith
      constructor
      · exact_mod_cast le_trans hw hwv
      · have hsq : (-2 * (t : ℝ) * Real.sqrt (d2 : ℝ)) ^ 2 ≤ ((r2 : ℝ) - d2 - t ^ 2) ^ 2 :=
          pow_le_pow_left₀ hw hwv 2
        have : 4 * (t : ℝ) ^ 2 * d2 ≤ ((r2 : ℝ) - d2 - t ^ 2) ^ 2 := by
          calc 4 * (t : ℝ) ^ 2 * d2
              = (-2 * (t : ℝ) * Real.sqrt (d2 : ℝ)) ^ 2 := by
                rw [show (-2 * (t : ℝ) * Real.sqrt (d2 : ℝ)) ^ 2
                      = 4 * t ^ 2 * Real.sqrt (d2 : ℝ) ^ 2 by ring, hb2]
            _ ≤ ((r2 : ℝ) - d2 - t ^ 2) ^ 2 := hsq
        exact_mod_cast this

/-- Rounding an integer multiple of the cell size divided by the cell
size returns the integer itself. -/
theorem mathRound_intCast (k : ℤ) : mathRound (k : ℚ) = k := by
  unfold mathRound
  rw [Int.floor_int_add]
  norm_num

/-- C9.  Grid snapping is idempotent: for every coordinate pair and
every nonzero grid cell size, `snapToGrid` applied to its own output
returns that output unchanged; with grid snap disabled it is the
identity, hence also idempotent. -/
theorem snapToGrid_idempotent (b : Bool) (g x y : ℚ) (hg : g ≠ 0) :
    snapToGrid b g (snapToGrid b g x y).1 (snapToGrid b g x y).2 = snapToGrid b g x y := by
  cases b with
  | false => simp [snapToGrid]
  | true =>
    simp only [snapToGrid, if_pos]
    rw [mul_div_cancel_right₀ _ hg, mul_div_cancel_right₀ _ hg,
        mathRound_intCast, mathRound_intCast]

/-- C9 witness: the code's cell size 20 is nonzero, and snapping the
already-snapped point `(7, 9)` changes nothing. -/
theorem snapToGrid_idempotent_witness :
    (20 : ℚ) ≠ 0 ∧
      snapToGrid true 20 (snapToGrid true 20 7 9).1 (snapToGrid true 20 7 9).2
        = snapToGrid true 20 7 9 :=
  ⟨by norm_num, snapToGrid_idempotent true 20 7 9 (by norm_num)⟩

/-- C4.  Zoom anchoring: for any state with zoom in `[0.1, 10]`, any
delta and any anchor point, the world point under the anchor is exactly
the same before and after `handleZoom` (exact over `ℚ`; the source's
floating-point version agrees up to rounding). -/
theorem handleZoom_anchors (s : CanvasState) (delta mx my : ℚ)
    (h1 : 0.1 ≤ s.zoom) (h2 : s.zoom ≤ 10) :
    screenToWorld (handleZoom delta mx my s).zoom (handleZoom delta mx my s).panOffset (mx, my)
      = screenToWorld s.zoom s.panOffset (mx, my) := by
  have hnz : (0 : ℚ) < max 0.1 (min 10 (s.zoom + delta)) :=
    lt_of_lt_of_le (by norm_num) (le_max_left _ _)
  simp only [screenToWorld, handleZoom]
  refine Prod.ext ?_ ?_ <;> simp only
  · rw [show mx - (mx - (mx - s.panOffset.1) / s.zoom * max 0.1 (min 10 (s.zoom + delta)))
        = (mx - s.panOffset.1) / s.zoom * max 0.1 (min 10 (s.zoom + delta)) by ring,
      mul_div_cancel_right₀ _ (ne_of_gt hnz)]
  · rw [show my - (my - (my - s.panOffset.2) / s.zoom * max 0.1 (min 10 (s.zoom + delta)))
        = (my - s.panOffset.2) / s.zoom * max 0.1 (min 10 (s.zoom + delta)) by ring,
      mul_div_cancel_right₀ _ (ne_of_gt hnz)]

/-- C4 witness: zooming in by 0.2 anchored at `(100, 50)` from the
initial view leaves the world point under `(100, 50)` unchanged. -/
theorem handleZoom_anchors_witness :
    (0.1 : ℚ) ≤ initState.zoom ∧ initState.zoom ≤ 10 ∧
      screenToWorld (handleZoom 0.2 100 50 initState).zoom
          (handleZoom 0.2 100 50 initState).panOffset (100, 50)
        = screenToWorld initState.zoom initState.panOffset (100, 50) :=
  ⟨by norm_num [initState], by norm_num [initState],
   handleZoom_anchors initState 0.2 100 50 (by norm_num [initState]) (by norm_num [initState])⟩

/-- C2.  A commit produces exactly the prefix of the old history up to
and including the cursor, followed by one snapshot of the current
`(elements, selection)`; the cursor lands on that new last snapshot. -/
theorem saveToHistory_spec (s : CanvasState) :
    (saveToHistory s).history
        = s.history.take (s.historyIndex + 1) ++ [⟨s.elements, s.selectedElements⟩]
      ∧ (saveToHistory s).historyIndex + 1 = (saveToHistory s).history.length
      ∧ (saveToHistory s).history[(saveToHistory s).historyIndex]?
          = some ⟨s.elements, s.selectedElements⟩ := by
  refine ⟨rfl, ?_, ?_⟩
  · simp [saveToHistory]
  · show (s.history.take (s.historyIndex + 1) ++ [⟨s.elements, s.selectedElements⟩])[
      (s.history.take (s.historyIndex + 1) ++ [(⟨s.elements, s.selectedElements⟩ : HistoryState)]).length - 1]?
      = some ⟨s.elements, s.selectedElements⟩
    rw [List.length_append, List.length_singleton, Nat.add_sub_cancel,
        List.getElem?_concat_length]

/-- C10.  An eraser click whose hit-test matches no element leaves the
whole state unchanged: elements, selection, history and cursor. -/
theorem eraseElements_miss_noop (s : CanvasState) (x y : ℚ)
    (h : ∀ el ∈ s.elements, isPointInElement x y s.zoom el = false) :
    eraseElements x y s = s := by
  have hnil : s.elements.reverse.filter (isPointInElement x y s.zoom) = [] :=
    List.filter_eq_nil_iff.mpr (fun a ha => by
      simp [h a (List.mem_reverse.mp ha)])
  unfold eraseElements
  rw [hnil]

/-- Neither demo rectangle is hit at `(100, 100)`. -/
theorem demoStateAB_miss :
    ∀ el ∈ demoStateAB.elements,
      isPointInElement 100 100 demoStateAB.zoom el = false := by
  intro el hel
  have hz : demoStateAB.zoom = 1 := rfl
  have hmem : el = DrawingElement.shape demoShapeA ∨ el = DrawingElement.shape demoShapeB := by
    simpa [demoStateAB, initState] using hel
  rw [hz]
  rcases hmem with h | h <;> subst h <;>
    norm_num [isPointInElement, demoShapeA, demoShapeB, min_def, max_def] <;>
    (intro hc; exact absurd hc (by decide))

/-- C10 witness: clicking at `(100, 100)` misses both demo rectangles,
and the state is untouched. -/
theorem eraseElements_miss_noop_witness :
    (∀ el ∈ demoStateAB.elements,
        isPointInElement 100 100 demoStateAB.zoom el = false) ∧
      eraseElements 100 100 demoStateAB = demoStateAB :=
  ⟨demoStateAB_miss, eraseElements_miss_noop demoStateAB 100 100 demoStateAB_miss⟩

/-- C3 counterexample: with grid snap enabled, the screen-to-world
conversion used for hit-testing and event handling (the source's
`transformCoordinates`) does NOT return the unquantized world point: at
zoom 1 and zero pan, screen `(7, 9)` converts to `(0, 0)`, not `(7, 9)`.
This refutes the claim that snapping is never applied at read time. -/
theorem transformCoordinates_snaps_cex :
    transformCoordinates 0 0 7 9 demoSnapState ≠ worldPoint 0 0 7 9 demoSnapState := by
  have h1 : transformCoordinates 0 0 7 9 demoSnapState = (0, 0) := by
    have e1 : mathRound ((7 : ℚ) / 20) = 0 := by
      rw [mathRound, Int.floor_eq_zero_iff]
      norm_num [Set.mem_Ico]
    have e2 : mathRound ((9 : ℚ) / 20) = 0 := by
      rw [mathRound, Int.floor_eq_zero_iff]
      norm_num [Set.mem_Ico]
    simp only [transformCoordinates, demoSnapState, initState, snapToGrid, gridSize, if_pos]
    norm_num [e1, e2]
  have h2 : worldPoint 0 0 7 9 demoSnapState = (7, 9) := by
    simp only [worldPoint, demoSnapState, initState]
    norm_num
  rw [h1, h2]
  norm_num [Prod.ext_iff]

/-- C3 as amended.  `transformCoordinates` returns the unquantized world
point when grid snap is disabled, and the grid-quantized world point when
grid snap is enabled — so with snapping on, quantization is applied at
every pointer-event conversion (hit-testing included), in addition to
draw-gesture commit, move/resize drag steps and paste placement. -/
theorem transformCoordinates_snap_spec (rl rt cx cy : ℚ) (s : CanvasState) :
    (s.gridSnap = false → transformCoordinates rl rt cx cy s = worldPoint rl rt cx cy s) ∧
    (s.gridSnap = true →
      transformCoordinates rl rt cx cy s
        = snapToGrid true gridSize (worldPoint rl rt cx cy s).1 (worldPoint rl rt cx cy s).2) := by
  constructor <;> intro h <;> simp [transformCoordinates, worldPoint, snapToGrid, h]

/-- C3 witness: with snapping off the conversion of screen `(7, 9)` is
the raw world point; with snapping on it is that point quantized. -/
theorem transformCoordinates_snap_witness :
    transformCoordinates 0 0 7 9 initState = worldPoint 0 0 7 9 initState ∧
      transformCoordinates 0 0 7 9 demoSnapState
        = snapToGrid true gridSize (worldPoint 0 0 7 9 demoSnapState).1
            (worldPoint 0 0 7 9 demoSnapState).2 :=
  ⟨(transformCoordinates_snap_spec 0 0 7 9 initState).1 rfl,
   (transformCoordinates_snap_spec 0 0 7 9 demoSnapState).2 rfl⟩

/-- `undo` never changes the zoom. -/
theorem undo_zoom (s : CanvasState) : (undo s).zoom = s.zoom := by
  unfold undo
  repeat' split
  all_goals rfl

/-- `redo` never changes the zoom. -/
theorem redo_zoom (s : CanvasState) : (redo s).zoom = s.zoom := by
  unfold redo
  repeat' split
  all_goals rfl

/-- `eraseElements` never changes the zoom. -/
theorem eraseElements_zoom (x y : ℚ) (s : CanvasState) :
    (eraseElements x y s).zoom = s.zoom := by
  simp only [eraseElements]
  split <;> rfl

/-- `pasteElements` never changes the zoom. -/
theorem pasteElements_zoom (idGen : Nat → String) (px py : Option ℚ) (s : CanvasState) :
    (pasteElements idGen px py s).zoom = s.zoom := by
  simp only [pasteElements]
  split <;> rfl

/-- `duplicateElements` never changes the zoom. -/
theorem duplicateElements_zoom (idGen : Nat → String) (s : CanvasState) :
    (duplicateElements idGen s).zoom = s.zoom := by
  simp only [duplicateElements]
  split <;> rfl

/-- `deleteSelectedElements` never changes the zoom. -/
theorem deleteSelectedElements_zoom (s : CanvasState) :
    (deleteSelectedElements s).zoom = s.zoom := by
  simp only [deleteSelectedElements]
  split <;> rfl

/-- `copyElements` never changes the zoom. -/
theorem copyElements_zoom (s : CanvasState) : (copyElements s).zoom = s.zoom := by
  simp only [copyElements]
  split <;> rfl

/-- `rotateSelectedElements` never changes the zoom. -/
theorem rotateSelectedElements_zoom (s : CanvasState) :
    (rotateSelectedElements s).zoom = s.zoom := by
  simp only [rotateSelectedElements]
  split <;> rfl

/-- `flipSelectedElementsHorizontal` never changes the zoom. -/
theorem flipSelectedElementsHorizontal_zoom (s : CanvasState) :
    (flipSelectedElementsHorizontal s).zoom = s.zoom := by
  simp only [flipSelectedElementsHorizontal]
  split <;> rfl

/-- `flipSelectedElementsVertical` never changes the zoom. -/
theorem flipSelectedElementsVertical_zoom (s : CanvasState) :
    (flipSelectedElementsVertical s).zoom = s.zoom := by
  simp only [flipSelectedElementsVertical]
  split <;> rfl

/-- `addTextToCanvas` never changes the zoom. -/
theorem addTextToCanvas_zoom (id : String) (s : CanvasState) :
    (addTextToCanvas id s).zoom = s.zoom := by
  simp only [addTextToCanvas]
  repeat' split
  all_goals rfl

/-- `finishDrawing` never changes the zoom. -/
theorem finishDrawing_zoom (ctrl : Bool) (s : CanvasState) :
    (finishDrawing ctrl s).zoom = s.zoom := by
  simp only [finishDrawing]
  repeat' split
  all_goals rfl

/-- `handleToolChange` never changes the zoom. -/
theorem handleToolChange_zoom (t : Tool) (s : CanvasState) :
    (handleToolChange t s).zoom = s.zoom := by
  simp only [handleToolChange]
  repeat' split
  all_goals rfl

/-- One operation keeps the zoom inside `[0.1, 10]`. -/
theorem applyOp_zoom_bound (op : Op) (s : CanvasState)
    (h1 : 0.1 ≤ s.zoom) (h2 : s.zoom ≤ 10) :
    0.1 ≤ (applyOp op s).zoom ∧ (applyOp op s).zoom ≤ 10 := by
  cases op with
  | zoomBy d mx my =>
    have hz : (applyOp (Op.zoomBy d mx my) s).zoom = max 0.1 (min 10 (s.zoom + d)) := rfl
    rw [hz]
    exact ⟨le_max_left _ _, max_le (by norm_num) (min_le_left _ _)⟩
  | resetView =>
    have hz : (applyOp Op.resetView s).zoom = 1 := rfl
    rw [hz]
    norm_num
  | panBy dx dy => exact ⟨h1, h2⟩
  | undoOp => rw [show (applyOp Op.undoOp s).zoom = (undo s).zoom from rfl, undo_zoom]; exact ⟨h1, h2⟩
  | redoOp => rw [show (applyOp Op.redoOp s).zoom = (redo s).zoom from rfl, redo_zoom]; exact ⟨h1, h2⟩
  | clear => exact ⟨h1, h2⟩
  | eraseAt x y =>
    rw [show (applyOp (Op.eraseAt x y) s).zoom = (eraseElements x y s).zoom from rfl,
       eraseElements_zoom]
    exact ⟨h1, h2⟩
  | pasteAt idGen x y =>
    rw [show (applyOp (Op.pasteAt idGen x y) s).zoom = (pasteElements idGen x y s).zoom from rfl,
       pasteElements_zoom]
    exact ⟨h1, h2⟩
  | duplicateSel idGen =>
    rw [show (applyOp (Op.duplicateSel idGen) s).zoom = (duplicateElements idGen s).zoom from rfl,
       duplicateElements_zoom]
    exact ⟨h1, h2⟩
  | deleteSel =>
    rw [show (applyOp Op.deleteSel s).zoom = (deleteSelectedElements s).zoom from rfl,
       deleteSelectedElements_zoom]
    exact ⟨h1, h2⟩
  | copySel =>
    rw [show (applyOp Op.copySel s).zoom = (copyElements s).zoom from rfl, copyElements_zoom]
    exact ⟨h1, h2⟩
  | rotateSel =>
    rw [show (applyOp Op.rotateSel s).zoom = (rotateSelectedElements s).zoom from rfl,
       rotateSelectedElements_zoom]
    exact ⟨h1, h2⟩
  | flipHSel =>
    rw [show (applyOp Op.flipHSel s).zoom = (flipSelectedElementsHorizontal s).zoom from rfl,
       flipSelectedElementsHorizontal_zoom]
    exact ⟨h1, h2⟩
  | flipVSel =>
    rw [show (applyOp Op.flipVSel s).zoom = (flipSelectedElementsVertical s).zoom from rfl,
       flipSelectedElementsVertical_zoom]
    exact ⟨h1, h2⟩
  | addText id =>
    rw [show (applyOp (Op.addText id) s).zoom = (addTextToCanvas id s).zoom from rfl,
       addTextToCanvas_zoom]
    exact ⟨h1, h2⟩
  | finishDraw ctrl =>
    rw [show (applyOp (Op.finishDraw ctrl) s).zoom = (finishDrawing ctrl s).zoom from rfl,
       finishDrawing_zoom]
    exact ⟨h1, h2⟩
  | changeTool t =>
    rw [show (applyOp (Op.changeTool t) s).zoom = (handleToolChange t s).zoom from rfl,
       handleToolChange_zoom]
    exact ⟨h1, h2⟩

/-- A fold of operations keeps the zoom inside `[0.1, 10]`. -/
theorem foldl_zoom_bound (ops : List Op) :
    ∀ s : CanvasState, 0.1 ≤ s.zoom → s.zoom ≤ 10 →
      0.1 ≤ (ops.foldl (fun s op => applyOp op s) s).zoom ∧
        (ops.foldl (fun s op => applyOp op s) s).zoom ≤ 10 := by
  induction ops with
  | nil => intro s h1 h2; exact ⟨h1, h2⟩
  | cons op rest ih =>
    intro s h1 h2
    simp only [List.foldl_cons]
    exact ih _ (applyOp_zoom_bound op s h1 h2).1 (applyOp_zoom_bound op s h1 h2).2

/-- C8.  Starting from the initial zoom of 1, any sequence of the
component's state-changing operations — zoom steps of any delta, wheel
and keyboard zooms, view resets, and every other modelled operation —
keeps the zoom inside `[0.1, 10]`, so the screen/world transform never
degenerates. -/
theorem zoom_clamped_invariant (ops : List Op) :
    0.1 ≤ (applyOps ops).zoom ∧ (applyOps ops).zoom ≤ 10 :=
  foldl_zoom_bound ops initState (by norm_num [initState]) (by norm_num [initState])

/-- C7.  Copy, duplicate, delete, rotate and both flips with an empty
selection, and paste with an empty clipboard, return the state entirely
unchanged — elements, selection, clipboard, history and cursor. -/
theorem empty_selection_noops (s : CanvasState) (idGen : Nat → String) (px py : Option ℚ) :
    (s.selectedElements = [] →
      copyElements s = s ∧ duplicateElements idGen s = s ∧
      deleteSelectedElements s = s ∧ rotateSelectedElements s = s ∧
      flipSelectedElementsHorizontal s = s ∧ flipSelectedElementsVertical s = s) ∧
    (s.copiedElements = [] → pasteElements idGen px py s = s) := by
  constructor
  · intro h
    refine ⟨?_, ?_, ?_, ?_, ?_, ?_⟩ <;>
      simp [copyElements, duplicateElements, deleteSelectedElements,
        rotateSelectedElements, flipSelectedElementsHorizontal,
        flipSelectedElementsVertical, h]
  · intro h
    simp [pasteElements, h]

/-- C7 witness: at the initial state (empty selection, empty clipboard)
all seven operations are no-ops. -/
theorem empty_selection_noops_witness :
    copyElements initState = initState ∧
    duplicateElements (fun _ => "d") initState = initState ∧
    deleteSelectedElements initState = initState ∧
    rotateSelectedElements initState = initState ∧
    flipSelectedElementsHorizontal initState = initState ∧
    flipSelectedElementsVertical initState = initState ∧
    pasteElements (fun _ => "d") none none initState = initState := by
  have h := empty_selection_noops initState (fun _ => "d") none none
  have h1 := h.1 rfl
  exact ⟨h1.1, h1.2.1, h1.2.2.1, h1.2.2.2.1, h1.2.2.2.2.1, h1.2.2.2.2.2, h.2 rfl⟩

/-- C5.  Decompose the store as `l1 ++ E :: l2` where `E` is hit and no
element above it (later in the sequence, higher z-order) is hit.  Then an
eraser click removes exactly `E` (ids being unique), filters it from the
selection, and commits one history snapshot with the cursor on it. -/
theorem eraseElements_topmost (s : CanvasState) (x y : ℚ)
    (l1 l2 : List DrawingElement) (E : DrawingElement)
    (hsplit : s.elements = l1 ++ E :: l2)
    (hE : isPointInElement x y s.zoom E = true)
    (habove : ∀ el ∈ l2, isPointInElement x y s.zoom el = false)
    (hids : (s.elements.map DrawingElement.id).Nodup) :
    (eraseElements x y s).elements = l1 ++ l2 ∧
    (eraseElements x y s).selectedElements
      = s.selectedElements.filter (fun el => el.id ≠ E.id) ∧
    (eraseElements x y s).history
      = s.history.take (s.historyIndex + 1) ++ [⟨s.elements, s.selectedElements⟩] ∧
    (eraseElements x y s).historyIndex + 1 = (eraseElements x y s).history.length := by
  have h2 : l2.reverse.filter (isPointInElement x y s.zoom) = [] :=
    List.filter_eq_nil_iff.mpr (fun a ha => by
      simp [habove a (List.mem_reverse.mp ha)])
  have hfilter : s.elements.reverse.filter (isPointInElement x y s.zoom)
      = E :: l1.reverse.filter (isPointInElement x y s.zoom) := by
    rw [hsplit, List.reverse_append, List.reverse_cons, List.filter_append,
        List.filter_append, h2, List.filter_singleton, hE]
    rfl
  have herase : eraseElements x y s =
      { s with
        elements := s.elements.filter (fun el => el.id ≠ E.id),
        selectedElements := s.selectedElements.filter (fun el => el.id ≠ E.id),
        history := (saveToHistory s).history,
        historyIndex := (saveToHistory s).historyIndex } := by
    unfold eraseElements
    rw [hfilter]
  -- id disjointness facts from uniqueness
  rw [hsplit, List.map_append, List.map_cons] at hids
  rw [List.nodup_append] at hids
  obtain ⟨-, hids2, hdisj⟩ := hids
  rw [List.nodup_cons] at hids2
  obtain ⟨hEl2, -⟩ := hids2
  have hl1 : ∀ a ∈ l1, a.id ≠ E.id := by
    intro a ha heq
    exact hdisj (List.mem_map_of_mem DrawingElement.id ha) (by rw [heq]; exact List.mem_cons_self _ _)
  have hl2 : ∀ a ∈ l2, a.id ≠ E.id := by
    intro a ha heq
    exact hEl2 (heq ▸ List.mem_map_of_mem DrawingElement.id ha)
  refine ⟨?_, ?_, ?_, ?_⟩
  · rw [herase]
    show s.elements.filter (fun el => el.id ≠ E.id) = l1 ++ l2
    rw [hsplit, List.filter_append, List.filter_cons]
    have hpredE : (decide (E.id ≠ E.id)) = false := by simp
    rw [List.filter_eq_self.mpr (fun a ha => by simp [hl1 a ha]),
        List.filter_eq_self.mpr (fun a ha => by simp [hl2 a ha])]
    simp
  · rw [herase]
  · rw [herase]
    rfl
  · rw [herase]
    show (saveToHistory s).historyIndex + 1 = (saveToHistory s).history.length
    simp [saveToHistory]

/-- C5 witness: rectangles A below B overlap at `(15, 15)`; the eraser
click there removes only B (A survives, the selection loses B, one
snapshot is committed). -/
theorem eraseElements_topmost_witness :
    (eraseElements 15 15 demoStateAB).elements = [DrawingElement.shape demoShapeA] ∧
    (eraseElements 15 15 demoStateAB).selectedElements = [] ∧
    (eraseElements 15 15 demoStateAB).history
      = [⟨[], []⟩, ⟨[DrawingElement.shape demoShapeA, DrawingElement.shape demoShapeB], []⟩] := by
  have hE : isPointInElement 15 15 demoStateAB.zoom (DrawingElement.shape demoShapeB) = true := by
    have hz : demoStateAB.zoom = 1 := rfl
    rw [hz]
    norm_num [isPointInElement, demoShapeB, min_def, max_def]
    exact Or.inl (by decide)
  have h := eraseElements_topmost demoStateAB 15 15
    [DrawingElement.shape demoShapeA] [] (DrawingElement.shape demoShapeB)
    rfl hE (by intro el hel; exact absurd hel (List.not_mem_nil el)) (by decide)
  exact ⟨by rw [h.1]; rfl, by rw [h.2.1]; rfl, by rw [h.2.2.1]; rfl⟩

/-- During an active box-select gesture, pointer-up replaces the
selection by the elements of the box filter (without the multi-select
modifier). -/
theorem finishDrawing_boxSelect (s : CanvasState) (sb : SelBox)
    (hpan : s.isPanning = false) (htool : s.tool = Tool.select)
    (hsel : s.isSelecting = true) (hbox : s.selectionBox = some sb) :
    (finishDrawing false s).selectedElements = elementsInBox sb s.elements := by
  unfold finishDrawing
  rw [if_neg (show ¬ (s.isPanning = true) by rw [hpan]; exact Bool.false_ne_true), hbox]
  dsimp only
  rw [if_pos (show s.tool = Tool.select ∧ s.isSelecting = true from ⟨htool, hsel⟩)]
  dsimp only
  rw [if_neg (show ¬ ((false : Bool) = true) from Bool.false_ne_true)]
  repeat' split
  all_goals rfl

/-- C6 counterexample: the box-select filter tests only a text element's
anchor point, not its nominal box.  The text anchored at `(25, 25)` with
font size 16 is selected by the rectangle `[0,0]-[30,30]`, although its
nominal box `[25,75] × [9,25]` is not fully contained in it.  This
refutes the claim that an element is selected iff its bounding box (for
Text, its nominal box) is fully contained. -/
theorem boxSelect_text_anchor_cex :
    DrawingElement.text demoTextEl ∈ (finishDrawing false demoTextBoxState).selectedElements ∧
    ¬ rectContains (selBoxRect demoSelBox) (textNominalBox demoTextEl) := by
  constructor
  · norm_num [finishDrawing, demoTextBoxState, initState, elementsInBox,
      demoSelBox, demoTextEl, List.mem_filter, min_def, max_def]
  · norm_num [rectContains, selBoxRect, textNominalBox, demoSelBox, demoTextEl,
      min_def, max_def]

/-- C6 as amended.  On pointer-up of a box-select gesture (no
multi-select modifier), an element is in the resulting selection iff it
is in the store and: for a non-text element, the normalized min/max box
of its stored start/end pair is fully contained in the normalized
selection rectangle (partial overlap does not select); for a text
element, its anchor point lies inside the rectangle (the nominal text
box is not consulted). -/
theorem boxSelect_containment (s : CanvasState) (sb : SelBox)
    (hpan : s.isPanning = false) (htool : s.tool = Tool.select)
    (hsel : s.isSelecting = true) (hbox : s.selectionBox = some sb) :
    ∀ el : DrawingElement,
      el ∈ (finishDrawing false s).selectedElements ↔
        el ∈ s.elements ∧ inSelectionRect sb el := by
  intro el
  rw [finishDrawing_boxSelect s sb hpan htool hsel hbox]
  rw [elementsInBox, List.mem_filter]
  cases el with
  | shape sh =>
    simp [inSelectionRect, rectContains, selBoxRect, shapeBBox, and_assoc]
  | text t =>
    simp [inSelectionRect, selBoxRect, and_assoc]

/-- C6 witness: the shape with bounding box `[10,10]-[20,20]` is
selected by the rectangle `[0,0]-[30,30]` but not by `[15,15]-[30,30]`. -/
theorem boxSelect_containment_witness :
    DrawingElement.shape demoShapeC ∈ (finishDrawing false demoBoxState1).selectedElements ∧
    DrawingElement.shape demoShapeC ∉ (finishDrawing false demoBoxState2).selectedElements := by
  constructor
  · exact (boxSelect_containment demoBoxState1 demoSelBox rfl rfl rfl rfl _).mpr
      ⟨by simp [demoBoxState1, initState],
       by norm_num [inSelectionRect, rectContains, selBoxRect, shapeBBox,
         demoSelBox, demoShapeC, min_def, max_def]⟩
  · intro hmem
    have h := (boxSelect_containment demoBoxState2 demoSelBoxSmall rfl rfl rfl rfl _).mp hmem
    have h2 := h.2
    norm_num [inSelectionRect, rectContains, selBoxRect, shapeBBox,
      demoSelBoxSmall, demoShapeC, min_def, max_def] at h2

/-- C1 counterexample: a state reached by a committing operation need
not satisfy the undo/redo inverse law.  From the initial state, the
text-entry collaborator fills in the pending input and commits; because
`saveToHistory` closes over the pre-commit `elements`, the committed
snapshot does not contain the new text element, so `undo(); redo()` ends
with the snapshot's elements (empty) instead of the pre-undo live
elements (the new text).  This refutes the claim for the committing
operation "adding text". -/
theorem undo_redo_roundtrip_cex :
    redo (undo (addTextToCanvas demoTextId demoTextStart))
      ≠ addTextToCanvas demoTextId demoTextStart := by
  intro h
  have h2 := congrArg CanvasState.elements h
  have hL : (redo (undo (addTextToCanvas demoTextId demoTextStart))).elements = [] := rfl
  have hR : (addTextToCanvas demoTextId demoTextStart).elements
      = [DrawingElement.text ⟨demoTextId, 5, 5, "hi", 2 * 8, some 0, some false, some false⟩] :=
    rfl
  rw [hL, hR] at h2
  exact List.noConfusion h2

/-- C1 as amended.  For any history state whose cursor sits on the last
snapshot and whose live `(elements, selection)` equals that snapshot —
which holds after commit-only histories whose committing handlers
snapshot the state they also leave live, e.g. completed drawing gestures
without grid snap — `undo()` followed by `redo()` restores the exact
pre-undo elements, selection and cursor; moreover `undo()` at cursor 0
and `redo()` at the last snapshot are no-ops.  (Reachability by
arbitrary committing operations is NOT enough: handlers that mutate the
store and commit in the same event snapshot the pre-edit state, see the
counterexample.) -/
theorem undo_redo_roundtrip (s : CanvasState)
    (hlast : s.historyIndex + 1 = s.history.length)
    (hlive : s.history[s.historyIndex]? = some ⟨s.elements, s.selectedElements⟩) :
    redo (undo s) = s ∧ (s.historyIndex = 0 → undo s = s) ∧ redo s = s := by
  have hredo : redo s = s := by
    unfold redo
    rw [if_neg (by omega)]
  have hundo0 : s.historyIndex = 0 → undo s = s := by
    intro h0
    unfold undo
    rw [if_neg (by omega)]
  refine ⟨?_, hundo0, hredo⟩
  by_cases h0 : s.historyIndex = 0
  · rw [hundo0 h0, hredo]
  · have hpos : 0 < s.historyIndex := Nat.pos_of_ne_zero h0
    have hlt : s.historyIndex - 1 < s.history.length := by omega
    obtain ⟨prev, hprev⟩ : ∃ p, s.history[s.historyIndex - 1]? = some p :=
      ⟨_, List.getElem?_eq_getElem hlt⟩
    have hundo : undo s =
        { s with elements := prev.elements,
                 selectedElements := prev.selectedElements,
                 historyIndex := s.historyIndex - 1 } := by
      unfold undo
      rw [if_pos hpos, hprev]
    rw [hundo]
    simp only [redo]
    rw [if_pos (show s.historyIndex - 1 < s.history.length - 1 by omega),
        show s.historyIndex - 1 + 1 = s.historyIndex from by omega, hlive]

/-- C1 witness: a two-snapshot history with the cursor on the second
snapshot and the live state equal to it; undo moves to the empty
snapshot and redo restores everything. -/
theorem undo_redo_roundtrip_witness :
    demoCommitted.historyIndex + 1 = demoCommitted.history.length ∧
    redo (undo demoCommitted) = demoCommitted ∧ redo demoCommitted = demoCommitted := by
  have h := undo_redo_roundtrip demoCommitted rfl rfl
  exact ⟨rfl, h.1, h.2.2⟩

end Paraboard
